import Mathlib

/-!
Shallow embedding of `ext/cdio/gstcdiocddasrc.c` (the cdiocddasrc element of
gst-plugins-ugly): a thin adapter between the GstCddaBaseSrc element API and
libcdio.  External collaborators (libcdio, GLib/GObject, the GStreamer pad
allocator) are modelled as explicit inputs; the definitions below follow the
C source line by line.
-/

namespace CdioCddaSrc

/-- `CDIO_CD_FRAMESIZE_RAW`: size in bytes of one raw CD-DA audio frame. -/
def CDIO_CD_FRAMESIZE_RAW : Nat := 2352

/-- `DEFAULT_READ_SPEED` (gstcdiocddasrc.c line 117). -/
def DEFAULT_READ_SPEED : Int := -1

/-- libcdio `driver_return_code_t` value `DRIVER_OP_UNINIT`: returned by the
read API when the `CdIo` handle passed in is NULL/uninitialised.  Only the
fact that it is nonzero matters below. -/
def DRIVER_OP_UNINIT : Int := -3

/-- libcdio `discmode_t`, restricted to the identities the source compares
against (`CDIO_DISC_MODE_CD_DA`, `CDIO_DISC_MODE_CD_MIXED`); every other
mode is `other n`. -/
inductive Discmode where
  | CD_DA : Discmode
  | CD_MIXED : Discmode
  | other : Int → Discmode
deriving DecidableEq, Repr

/-- The observable behaviour of one libcdio disc handle (`CdIo *`), i.e. the
answers the library gives for the queries the source makes on an opened
device.  `read_audio_sector` and `set_speed_ret` give the driver return
codes of `cdio_read_audio_sector` resp. `cdio_set_speed`. -/
structure CdIo where
  discmode : Discmode
  first_track_num : Int
  num_tracks : Int
  track_sec_count : Int → Int
  track_lsn : Int → Int
  track_format_audio : Int → Bool
  cdtext : Int → Option (List (String × String))
  set_speed_ret : Int → Int
  read_audio_sector : Int → Int

/-- The element instance state used by this file: the `read_speed` field and
the `cdio` handle pointer (NULL modelled as `none`). -/
structure GstCdioCddaSrc where
  read_speed : Int
  cdio : Option CdIo

/-- `gst_cdio_cdda_src_init` (lines 330-335): `read_speed` starts at
`DEFAULT_READ_SPEED`, `cdio` starts NULL. -/
def gst_cdio_cdda_src_init : GstCdioCddaSrc :=
  { read_speed := DEFAULT_READ_SPEED, cdio := none }

/-- One `GstCddaBaseSrcTrack` as filled in by the enumeration loop of
`gst_cdio_cdda_src_open` (lines 296-312). -/
structure GstCddaBaseSrcTrack where
  num : Int
  is_audio : Bool
  start : Int
  «end» : Int
  tags : Option (List (String × String))
deriving DecidableEq, Repr

/-- `notcdio_track_is_audio_track` (lines 207-211). -/
def notcdio_track_is_audio_track (cdio : CdIo) (i_track : Int) : Bool :=
  cdio.track_format_audio i_track

/-- `gst_cdio_cdda_src_get_cdtext` (lines 215-233, libcdio >= 76 build):
fetches the CD-TEXT fields for a track; absence is `none`, not an error. -/
def gst_cdio_cdda_src_get_cdtext (cdio : CdIo) (i_track : Int) :
    Option (List (String × String)) :=
  cdio.cdtext i_track

/-- The body of the enumeration loop of `gst_cdio_cdda_src_open`
(lines 296-312) for track number `t = i + first_track`. -/
def makeTrack (cdio : CdIo) (t : Int) : GstCddaBaseSrcTrack :=
  { num := t
    is_audio := notcdio_track_is_audio_track cdio t
    start := cdio.track_lsn t
    «end» := cdio.track_lsn t + cdio.track_sec_count t - 1
    tags := gst_cdio_cdda_src_get_cdtext cdio t }

/-- What `gst_cdio_cdda_src_open` returns and does: the boolean result, the
element state afterwards, the tracks handed to `gst_cdda_base_src_add_track`
in call order, and the arguments of the `cdio_set_speed` calls made. -/
structure OpenResult where
  ret : Bool
  src : GstCdioCddaSrc
  tracks : List GstCddaBaseSrcTrack
  speed_calls : List Int

/-- `gst_cdio_cdda_src_open` (lines 247-315), for the libcdio >= 76 build.
`openResult` is what `cdio_open (device, DRIVER_UNKNOWN)` returned (`none`
for NULL).  The function stores the handle, errors out unless the disc mode
is CD-DA or mixed, returns success with no tracks on an empty disc, applies
the configured read speed (ignoring the `cdio_set_speed` result), and
enumerates tracks `first_track .. first_track + num_tracks - 1`. -/
def gst_cdio_cdda_src_open (src : GstCdioCddaSrc) (openResult : Option CdIo) :
    OpenResult :=
  match openResult with
  | none =>
      { ret := false, src := { src with cdio := none },
        tracks := [], speed_calls := [] }
  | some cdio =>
      if cdio.discmode ≠ Discmode.CD_DA ∧ cdio.discmode ≠ Discmode.CD_MIXED then
        { ret := false, src := { src with cdio := some cdio },
          tracks := [], speed_calls := [] }
      else if cdio.num_tracks ≤ 0 ∨ cdio.first_track_num < 0 then
        { ret := true, src := { src with cdio := some cdio },
          tracks := [], speed_calls := [] }
      else
        { ret := true
          src := { src with cdio := some cdio }
          tracks := (List.range cdio.num_tracks.toNat).map
            (fun (i : Nat) => makeTrack cdio ((i : Int) + cdio.first_track_num))
          speed_calls := if src.read_speed ≠ -1 then [src.read_speed] else [] }

/-- `gst_cdio_cdda_src_close` (lines 317-328): destroys the handle and
resets the pointer to NULL. -/
def gst_cdio_cdda_src_close (src : GstCdioCddaSrc) : GstCdioCddaSrc :=
  { src with cdio := none }

/-- A GStreamer buffer, as far as this file observes it: its size. -/
structure GstBuffer where
  size : Nat
deriving DecidableEq, Repr

/-- Environment of one `gst_cdio_cdda_src_read_sector` call: whether
`gst_pad_alloc_buffer` returns `GST_FLOW_OK`, and the C `errno` that
`g_strerror` would report on a failed read. -/
structure PadAllocEnv where
  flow_ok : Bool
  errno : Int

/-- The observable outcome of `gst_cdio_cdda_src_read_sector`: either the
returned buffer, or NULL after the pad allocator failed (debug log only),
or NULL after a failed read (a RESOURCE/READ element error carrying the
sector number and the errno cause is posted, and the buffer is unreffed). -/
inductive ReadSectorResult where
  | buffer : GstBuffer → ReadSectorResult
  | allocFailed : ReadSectorResult
  | readFailure : Int → Int → ReadSectorResult
deriving DecidableEq, Repr

/-- `cdio_read_audio_sector` as called on `src->cdio` (line 194): libcdio
validates its handle argument and returns `DRIVER_OP_UNINIT` when it is
NULL; otherwise the driver return code of the handle decides. -/
def cdio_read_audio_sector (cdio : Option CdIo) (sector : Int) : Int :=
  match cdio with
  | none => DRIVER_OP_UNINIT
  | some c => c.read_audio_sector sector

/-- `gst_cdio_cdda_src_read_sector` (lines 176-205): allocate a buffer of
`CDIO_CD_FRAMESIZE_RAW` bytes via the pad, return NULL if that fails, read
the sector into it, and on a nonzero driver code post the element error and
unref the buffer instead of returning it. -/
def gst_cdio_cdda_src_read_sector (src : GstCdioCddaSrc) (env : PadAllocEnv)
    (sector : Int) : ReadSectorResult :=
  if ¬ env.flow_ok then
    ReadSectorResult.allocFailed
  else if cdio_read_audio_sector src.cdio sector ≠ 0 then
    ReadSectorResult.readFailure sector env.errno
  else
    ReadSectorResult.buffer { size := CDIO_CD_FRAMESIZE_RAW }

/-- `g_strdupv`: a deep copy of a string vector; the copy has the same
contents. -/
def g_strdupv (l : List String) : List String := l

/-- `gst_cdio_cdda_src_probe_devices` (lines 146-174): `cdio_get_devices`
returning NULL or a NULL-terminated array is the input (`none` for NULL,
the list of strings otherwise); a NULL or empty array yields NULL, any
other array is copied with `g_strdupv` and returned. -/
def gst_cdio_cdda_src_probe_devices (devices : Option (List String)) :
    Option (List String) :=
  match devices with
  | none => none
  | some [] => none
  | some l => some (g_strdupv l)

/-- GLib `CLAMP` macro, used by `g_param_value_validate` on int properties. -/
def CLAMP (x lo hi : Int) : Int :=
  if x < lo then lo else if x > hi then hi else x

/-- Lower bound of the `read-speed` GParamSpec (line 362). -/
def readSpeedParamMin : Int := -1

/-- Upper bound of the `read-speed` GParamSpec (line 362). -/
def readSpeedParamMax : Int := 100

/-- `gst_cdio_cdda_src_set_property` for `PROP_READ_SPEED` (lines 366-384):
stores the int value of the GValue into `src->read_speed`. -/
def gst_cdio_cdda_src_set_property (src : GstCdioCddaSrc) (speed : Int) :
    GstCdioCddaSrc :=
  { src with read_speed := speed }

/-- `gst_cdio_cdda_src_get_property` for `PROP_READ_SPEED` (lines 386-404):
reads `src->read_speed`. -/
def gst_cdio_cdda_src_get_property (src : GstCdioCddaSrc) : Int :=
  src.read_speed

/-- Setting the `read-speed` property through `g_object_set`: GObject's
`object_set_property` validates the GValue against the GParamSpec installed
at lines 360-363 — `g_param_value_validate` on an int paramspec clamps into
`[minimum, maximum]` and reports whether it modified the value.  The pspec
is plain `G_PARAM_READWRITE` (no `G_PARAM_LAX_VALIDATION`), so when
validation would have to modify an out-of-range value GObject warns and
never invokes the element's `set_property`: the set is rejected and the
state is unchanged.  Only an unmodified (in-range) value reaches
`gst_cdio_cdda_src_set_property`. -/
def set_read_speed_property (src : GstCdioCddaSrc) (v : Int) : GstCdioCddaSrc :=
  if CLAMP v readSpeedParamMin readSpeedParamMax ≠ v then src
  else gst_cdio_cdda_src_set_property src
    (CLAMP v readSpeedParamMin readSpeedParamMax)

/-- A valid audio disc, as assumed by the spec's track-layout invariants:
an audio or mixed disc mode, at least one track, a non-negative first track
number, and for the enumerated track range every track has at least one
sector, consecutive tracks do not overlap, and all sector numbers fit
comfortably in a C `gint`. -/
def ValidAudioDisc (cdio : CdIo) : Prop :=
  (cdio.discmode = Discmode.CD_DA ∨ cdio.discmode = Discmode.CD_MIXED) ∧
  0 < cdio.num_tracks ∧
  0 ≤ cdio.first_track_num ∧
  (∀ t : Int, cdio.first_track_num ≤ t →
      t < cdio.first_track_num + cdio.num_tracks →
      1 ≤ cdio.track_sec_count t ∧ 0 ≤ cdio.track_lsn t ∧
      cdio.track_lsn t + cdio.track_sec_count t < 2 ^ 31) ∧
  (∀ t : Int, cdio.first_track_num ≤ t →
      t + 1 < cdio.first_track_num + cdio.num_tracks →
      cdio.track_lsn t + cdio.track_sec_count t ≤ cdio.track_lsn (t + 1))

/-- The track-list shape the spec demands of a successful enumeration:
success, one descriptor per track, contiguous track numbers starting at
`first_track_num` in strictly ascending order, inclusive sector ranges
with `start ≤ end`, and non-overlapping ranges ascending with the index. -/
def TrackListInvariant (cdio : CdIo) (r : OpenResult) : Prop :=
  r.ret = true ∧
  r.tracks.length = cdio.num_tracks.toNat ∧
  (∀ (i : Nat) (hi : i < r.tracks.length),
    (r.tracks.get ⟨i, hi⟩).num = cdio.first_track_num + i) ∧
  (∀ (i : Nat) (hi : i + 1 < r.tracks.length),
    (r.tracks.get ⟨i, Nat.lt_of_succ_lt hi⟩).num < (r.tracks.get ⟨i + 1, hi⟩).num) ∧
  (∀ (i : Nat) (hi : i < r.tracks.length),
    (r.tracks.get ⟨i, hi⟩).start ≤ (r.tracks.get ⟨i, hi⟩).«end») ∧
  (∀ (i : Nat) (hi : i + 1 < r.tracks.length),
    (r.tracks.get ⟨i, Nat.lt_of_succ_lt hi⟩).«end» < (r.tracks.get ⟨i + 1, hi⟩).start)

/-- A concrete valid two-track audio disc used to instantiate theorems. -/
def witnessDisc : CdIo :=
  { discmode := Discmode.CD_DA
    first_track_num := 1
    num_tracks := 2
    track_sec_count := fun _ => 1000
    track_lsn := fun t => 1000 * t
    track_format_audio := fun _ => true
    cdtext := fun _ => none
    set_speed_ret := fun _ => 0
    read_audio_sector := fun _ => 0 }

/-- An otherwise valid disc reporting zero tracks. -/
def zeroTrackDisc : CdIo :=
  { witnessDisc with num_tracks := 0 }

/-- A disc whose mode is neither CD-DA nor mixed (e.g. a data CD-ROM). -/
def dataDisc : CdIo :=
  { witnessDisc with discmode := Discmode.other 4 }

/-- An element state with a non-default read speed configured and no open
handle. -/
def speedFiveSrc : GstCdioCddaSrc :=
  { read_speed := 5, cdio := none }

theorem witnessDisc_valid : ValidAudioDisc witnessDisc := by
  refine ⟨Or.inl rfl, by norm_num [witnessDisc], by norm_num [witnessDisc], ?_, ?_⟩
  · intro t h1 h2
    simp only [witnessDisc] at h1 h2 ⊢
    omega
  · intro t h1 h2
    simp only [witnessDisc] at h1 h2 ⊢
    omega

/-- On a disc whose mode passes the check and whose track layout is sane,
`gst_cdio_cdda_src_open` takes the enumeration branch. -/
theorem open_enumeration_branch (src : GstCdioCddaSrc) (cdio : CdIo)
    (hmode : cdio.discmode = Discmode.CD_DA ∨ cdio.discmode = Discmode.CD_MIXED)
    (hn : 0 < cdio.num_tracks) (hf : 0 ≤ cdio.first_track_num) :
    gst_cdio_cdda_src_open src (some cdio) =
      { ret := true
        src := { src with cdio := some cdio }
        tracks := (List.range cdio.num_tracks.toNat).map
          (fun (i : Nat) => makeTrack cdio ((i : Int) + cdio.first_track_num))
        speed_calls := if src.read_speed ≠ -1 then [src.read_speed] else [] } := by
  have h1 : ¬ (cdio.discmode ≠ Discmode.CD_DA ∧ cdio.discmode ≠ Discmode.CD_MIXED) := by
    rcases hmode with h | h <;> simp [h]
  have h2 : ¬ (cdio.num_tracks ≤ 0 ∨ cdio.first_track_num < 0) := by omega
  simp only [gst_cdio_cdda_src_open, if_neg h1, if_neg h2]

/-- C1: for every successful open on a valid audio disc (num_tracks > 0,
first_track ≥ 0), the track descriptors are produced in strictly ascending
index order with contiguous indices `first_track .. first_track +
num_tracks - 1`, every descriptor satisfies `startSector ≤ endSector`, and
the sector ranges are non-overlapping and ascending with the index. -/
theorem open_valid_disc_track_invariants (src : GstCdioCddaSrc) (cdio : CdIo)
    (hv : ValidAudioDisc cdio) :
    TrackListInvariant cdio (gst_cdio_cdda_src_open src (some cdio)) := by
  obtain ⟨hmode, hn, hf, hsec, hmono⟩ := hv
  rw [open_enumeration_branch src cdio hmode hn hf]
  simp only [TrackListInvariant]
  simp only [List.length_map, List.length_range, List.get_eq_getElem,
    List.getElem_map, List.getElem_range]
  refine ⟨trivial, trivial, ?_, ?_, ?_, ?_⟩
  · intro i hi
    simp only [makeTrack]
    omega
  · intro i hi
    simp only [makeTrack]
    omega
  · intro i hi
    simp only [makeTrack]
    have h1 := hsec ((i : Int) + cdio.first_track_num) (by omega) (by omega)
    omega
  · intro i hi
    simp only [makeTrack]
    have h2 := hmono ((i : Int) + cdio.first_track_num) (by omega) (by omega)
    rw [show ((i : Int) + cdio.first_track_num) + 1 =
        ((i + 1 : Nat) : Int) + cdio.first_track_num by push_cast; ring] at h2
    omega

/-- C1 witness: the invariant holds concretely for the two-track disc. -/
theorem open_valid_disc_track_invariants_witness :
    TrackListInvariant witnessDisc
      (gst_cdio_cdda_src_open gst_cdio_cdda_src_init (some witnessDisc)) :=
  open_valid_disc_track_invariants gst_cdio_cdda_src_init witnessDisc witnessDisc_valid

/-- C2 (evaluation at the failing input): opening a disc whose mode is
neither CD-DA nor mixed fails with no tracks enumerated, but the freshly
acquired device handle is retained in the element state instead of being
released, contradicting the claimed handle-free closed state. -/
theorem open_mode_failure_retains_handle :
    (gst_cdio_cdda_src_open gst_cdio_cdda_src_init (some dataDisc)).ret = false ∧
    (gst_cdio_cdda_src_open gst_cdio_cdda_src_init (some dataDisc)).tracks = [] ∧
    (gst_cdio_cdda_src_open gst_cdio_cdda_src_init (some dataDisc)).src.cdio =
      some dataDisc :=
  ⟨rfl, rfl, rfl⟩

/-- C3: every read_sector call either returns a buffer of exactly one raw
CD-DA frame (`CDIO_CD_FRAMESIZE_RAW` bytes) — and only when the underlying
read reported full success — or fails without returning any buffer, the
read-failure case carrying the sector number and the errno cause. -/
theorem read_sector_exact_frame_or_failure (src : GstCdioCddaSrc)
    (env : PadAllocEnv) (s : Int) :
    (gst_cdio_cdda_src_read_sector src env s =
        ReadSectorResult.buffer { size := CDIO_CD_FRAMESIZE_RAW } ∧
      cdio_read_audio_sector src.cdio s = 0) ∨
    gst_cdio_cdda_src_read_sector src env s = ReadSectorResult.allocFailed ∨
    (gst_cdio_cdda_src_read_sector src env s =
        ReadSectorResult.readFailure s env.errno ∧
      cdio_read_audio_sector src.cdio s ≠ 0) := by
  unfold gst_cdio_cdda_src_read_sector
  split_ifs with h1 h2
  · exact Or.inr (Or.inr ⟨rfl, h2⟩)
  · exact Or.inl ⟨rfl, not_not.mp h2⟩
  · exact Or.inr (Or.inl rfl)

/-- C4: every enumerated track descriptor has its start at the track's
logical sector number and its inclusive end at start plus the track's
sector count minus one. -/
theorem track_end_is_start_plus_length_minus_one (src : GstCdioCddaSrc)
    (cdio : CdIo) (tr : GstCddaBaseSrcTrack)
    (htr : tr ∈ (gst_cdio_cdda_src_open src (some cdio)).tracks) :
    tr.start = cdio.track_lsn tr.num ∧
    tr.«end» = tr.start + cdio.track_sec_count tr.num - 1 := by
  simp only [gst_cdio_cdda_src_open] at htr
  split_ifs at htr
  · simp at htr
  · simp at htr
  · simp only [List.mem_map, List.mem_range] at htr
    obtain ⟨i, hmem, rfl⟩ := htr
    simp [makeTrack]
  · simp only [List.mem_map, List.mem_range] at htr
    obtain ⟨i, hmem, rfl⟩ := htr
    simp [makeTrack]

/-- C4 witness: the relation holds for the first track of the two-track
disc, which open enumerates. -/
theorem track_end_is_start_plus_length_minus_one_witness :
    (makeTrack witnessDisc 1).start =
        witnessDisc.track_lsn (makeTrack witnessDisc 1).num ∧
    (makeTrack witnessDisc 1).«end» = (makeTrack witnessDisc 1).start +
        witnessDisc.track_sec_count (makeTrack witnessDisc 1).num - 1 :=
  track_end_is_start_plus_length_minus_one gst_cdio_cdda_src_init witnessDisc
    (makeTrack witnessDisc 1) (by decide)

/-- C5: when the disc mode check passes but the disc reports zero tracks
(or a negative first track number), open returns success with an empty
track list instead of an error. -/
theorem open_empty_disc_returns_success_no_tracks (src : GstCdioCddaSrc)
    (cdio : CdIo)
    (hmode : cdio.discmode = Discmode.CD_DA ∨ cdio.discmode = Discmode.CD_MIXED)
    (hempty : cdio.num_tracks ≤ 0 ∨ cdio.first_track_num < 0) :
    (gst_cdio_cdda_src_open src (some cdio)).ret = true ∧
    (gst_cdio_cdda_src_open src (some cdio)).tracks = [] := by
  have h1 : ¬ (cdio.discmode ≠ Discmode.CD_DA ∧
      cdio.discmode ≠ Discmode.CD_MIXED) := by
    rcases hmode with h | h <;> simp [h]
  simp only [gst_cdio_cdda_src_open, if_neg h1, if_pos hempty]
  constructor <;> trivial

/-- C5 witness: the zero-track disc opens successfully with no tracks. -/
theorem open_empty_disc_returns_success_no_tracks_witness :
    (gst_cdio_cdda_src_open gst_cdio_cdda_src_init (some zeroTrackDisc)).ret
      = true ∧
    (gst_cdio_cdda_src_open gst_cdio_cdda_src_init (some zeroTrackDisc)).tracks
      = [] :=
  open_empty_disc_returns_success_no_tracks gst_cdio_cdda_src_init zeroTrackDisc
    (Or.inl rfl) (Or.inl (by decide))

/-- C6 counterexample: with a configured read speed of 5 (not the -1
sentinel), opening an otherwise valid disc that reports zero tracks
succeeds, yet no attempt to apply the speed is made — the claim that every
successful open applies a non-default speed exactly once is false. -/
theorem open_zero_tracks_success_skips_speed :
    speedFiveSrc.read_speed = 5 ∧
    (gst_cdio_cdda_src_open speedFiveSrc (some zeroTrackDisc)).ret = true ∧
    (gst_cdio_cdda_src_open speedFiveSrc (some zeroTrackDisc)).speed_calls
      = [] :=
  ⟨rfl, rfl, rfl⟩

/-- C6 (amended): for every open that passes the mode check and proceeds to
track enumeration (num_tracks > 0 and first_track ≥ 0), the open succeeds —
regardless of what the speed-setting call would report — and the configured
read speed is applied to the handle exactly once when it is not -1, and not
at all when it is -1. -/
theorem open_enumerating_applies_speed_once (src : GstCdioCddaSrc)
    (cdio : CdIo)
    (hmode : cdio.discmode = Discmode.CD_DA ∨ cdio.discmode = Discmode.CD_MIXED)
    (hn : 0 < cdio.num_tracks) (hf : 0 ≤ cdio.first_track_num) :
    (gst_cdio_cdda_src_open src (some cdio)).ret = true ∧
    (gst_cdio_cdda_src_open src (some cdio)).speed_calls =
      if src.read_speed = -1 then [] else [src.read_speed] := by
  rw [open_enumeration_branch src cdio hmode hn hf]
  refine ⟨rfl, ?_⟩
  by_cases h : src.read_speed = -1 <;> simp [h]

/-- C6 (amended) witness: with read speed 5 and the two-track disc, open
succeeds and applies speed 5 once. -/
theorem open_enumerating_applies_speed_once_witness :
    (gst_cdio_cdda_src_open speedFiveSrc (some witnessDisc)).ret = true ∧
    (gst_cdio_cdda_src_open speedFiveSrc (some witnessDisc)).speed_calls =
      if speedFiveSrc.read_speed = -1 then [] else [speedFiveSrc.read_speed] :=
  open_enumerating_applies_speed_once speedFiveSrc witnessDisc (Or.inl rfl)
    (by decide) (by decide)

/-- C7: after close has cleared the handle, a read_sector call never
returns a sector buffer: it either fails in allocation or is rejected by
the read call, which reports an error for an uninitialised handle. -/
theorem read_after_close_never_returns_buffer (src : GstCdioCddaSrc)
    (env : PadAllocEnv) (s : Int) :
    gst_cdio_cdda_src_read_sector (gst_cdio_cdda_src_close src) env s =
        ReadSectorResult.allocFailed ∨
    gst_cdio_cdda_src_read_sector (gst_cdio_cdda_src_close src) env s =
        ReadSectorResult.readFailure s env.errno := by
  have hcd : (gst_cdio_cdda_src_close src).cdio = none := rfl
  simp only [gst_cdio_cdda_src_read_sector, hcd, cdio_read_audio_sector,
    DRIVER_OP_UNINIT]
  by_cases h : env.flow_ok <;> simp [h]

/-- C8: setting the read-speed property to any value in [-1, 100] and
getting it back returns the same value; the one consistent policy for a
value outside [-1, 100] is rejection (the set leaves the state unchanged),
so from the default of -1 the stored read speed always lies in [-1, 100]:
any state in range stays in range under every set. -/
theorem read_speed_set_get_roundtrip_and_rejection (src : GstCdioCddaSrc)
    (v w : Int) (hlo : -1 ≤ v) (hhi : v ≤ 100)
    (hinv : -1 ≤ src.read_speed ∧ src.read_speed ≤ 100) :
    gst_cdio_cdda_src_get_property (set_read_speed_property src v) = v ∧
    (w < -1 ∨ 100 < w → set_read_speed_property src w = src) ∧
    (-1 ≤ (set_read_speed_property src w).read_speed ∧
      (set_read_speed_property src w).read_speed ≤ 100) ∧
    gst_cdio_cdda_src_init.read_speed = -1 := by
  refine ⟨?_, ?_, ?_, rfl⟩
  · simp only [gst_cdio_cdda_src_get_property, set_read_speed_property,
      gst_cdio_cdda_src_set_property, CLAMP, readSpeedParamMin,
      readSpeedParamMax]
    split_ifs <;> (try dsimp only) <;> omega
  · intro hw
    simp only [set_read_speed_property, CLAMP, readSpeedParamMin,
      readSpeedParamMax]
    split_ifs <;> first | rfl | omega
  · simp only [set_read_speed_property, gst_cdio_cdda_src_set_property, CLAMP,
      readSpeedParamMin, readSpeedParamMax]
    constructor <;> (split_ifs <;> (try dsimp only) <;> omega)

/-- C8 witness: from the initial state, setting 42 round-trips, setting 500
is rejected, and the stored value stays in [-1, 100]. -/
theorem read_speed_set_get_roundtrip_and_rejection_witness :
    gst_cdio_cdda_src_get_property
        (set_read_speed_property gst_cdio_cdda_src_init 42) = 42 ∧
    ((500 : Int) < -1 ∨ (100 : Int) < 500 →
      set_read_speed_property gst_cdio_cdda_src_init 500 =
        gst_cdio_cdda_src_init) ∧
    (-1 ≤ (set_read_speed_property gst_cdio_cdda_src_init 500).read_speed ∧
      (set_read_speed_property gst_cdio_cdda_src_init 500).read_speed ≤ 100) ∧
    gst_cdio_cdda_src_init.read_speed = -1 :=
  read_speed_set_get_roundtrip_and_rejection gst_cdio_cdda_src_init 42 500
    (by norm_num) (by norm_num) (by constructor <;> decide)

/-- C10: probe_devices never yields a present-but-empty enumeration: a NULL
or empty device array from the backend yields an absent result, and any
present result is a non-empty device list. -/
theorem probe_devices_never_present_but_empty (devices : Option (List String)) :
    gst_cdio_cdda_src_probe_devices none = none ∧
    gst_cdio_cdda_src_probe_devices (some []) = none ∧
    ∀ l : List String,
      gst_cdio_cdda_src_probe_devices devices = some l → l ≠ [] := by
  refine ⟨rfl, rfl, ?_⟩
  intro l h
  match devices with
  | none => simp [gst_cdio_cdda_src_probe_devices] at h
  | some [] => simp [gst_cdio_cdda_src_probe_devices] at h
  | some (x :: xs) =>
      simp only [gst_cdio_cdda_src_probe_devices, g_strdupv,
        Option.some.injEq] at h
      subst h
      simp

/-- C10 witness: a one-element enumeration is returned non-empty. -/
theorem probe_devices_never_present_but_empty_witness :
    (["/dev/cdrom"] : List String) ≠ [] :=
  (probe_devices_never_present_but_empty (some ["/dev/cdrom"])).2.2
    ["/dev/cdrom"] rfl

end CdioCddaSrc
